import Mathlib

/-!
Shallow embedding of `src/main.rs` from the rust_sports_cli repository:
an interactive terminal viewer for NBA daily game results.

Modelling conventions:
- `chrono::DateTime<Utc>` is modelled as an `Int` Unix timestamp in seconds;
  `chrono::Duration::days n` is `n * 86400` seconds.
- Calendar-date formatting (`%Y-%m-%d`) is the standard civil-from-days
  conversion used by chrono, implemented executably.
- External library effects (crossterm events, reqwest HTTP, serde_json string
  parsing, ratatui drawing) are modelled at the boundary: events and HTTP
  outcomes are inputs, rendering is a pure `Option Rendered` value, and
  process aborts (`panic`/`expect`) are an explicit `fatal` outcome.
-/

namespace Nba

/-- Seconds in `chrono::Duration::days n`. -/
def Duration.days (n : Int) : Int := n * 86400

/-- Civil calendar date (year, month, day) from a count of days since
1970-01-01, the standard algorithm used by chrono for `Utc` dates. -/
def civilFromDays (z0 : Int) : Int × Int × Int :=
  let z := z0 + 719468
  let era : Int := Int.fdiv z 146097
  let doe : Int := z - era * 146097
  let yoe : Int := Int.fdiv (doe - Int.fdiv doe 1460 + Int.fdiv doe 36524 - Int.fdiv doe 146096) 365
  let y : Int := yoe + era * 400
  let doy : Int := doe - (365 * yoe + Int.fdiv yoe 4 - Int.fdiv yoe 100)
  let mp : Int := Int.fdiv (5 * doy + 2) 153
  let d : Int := doy - Int.fdiv (153 * mp + 2) 5 + 1
  let m : Int := if mp < 10 then mp + 3 else mp - 9
  (if m ≤ 2 then y + 1 else y, m, d)

/-- Zero-pad the decimal rendering of a nonnegative integer to `w` digits
(negative integers keep their sign, as chrono would print them). -/
def padNum (w : Nat) (n : Int) : String :=
  let s := if n < 0 then (-n).toNat.repr else n.toNat.repr
  let pad := String.mk (List.replicate (w - s.length) '0')
  (if n < 0 then "-" else "") ++ pad ++ s

/-- The `format("%Y-%m-%d")` rendering of a Unix timestamp (seconds). -/
def formatYMD (ts : Int) : String :=
  let c := civilFromDays (Int.fdiv ts 86400)
  padNum 4 c.1 ++ "-" ++ padNum 2 c.2.1 ++ "-" ++ padNum 2 c.2.2

/-- The `Team` struct of `main.rs` (field order as declared). -/
structure Team where
  id : Nat
  abbreviation : String
  city : String
  conference : String
  division : String
  full_name : String
  name : String
deriving DecidableEq, Repr

/-- The `Game` struct of `main.rs` (field order as declared). -/
structure Game where
  id : Nat
  date : String
  home_team : Team
  home_team_score : Nat
  period : Nat
  postseason : Bool
  season : Nat
  status : String
  time : Option String
  visitor_team : Team
  visitor_team_score : Nat
deriving DecidableEq, Repr

/-- The `Meta` pagination struct of `main.rs`. -/
structure Meta where
  current_page : Nat
  next_page : Option Nat
  per_page : Nat
deriving DecidableEq, Repr

/-- The `GameData` result-set struct of `main.rs`. -/
structure GameData where
  data : List Game
  meta : Meta
deriving DecidableEq, Repr

/-- `Game::get_display_line` of `main.rs`: one summary line per game. -/
def Game.get_display_line (g : Game) : String :=
  g.home_team.abbreviation ++ " " ++ g.home_team_score.repr ++ ":" ++
    g.visitor_team_score.repr ++ " " ++ g.visitor_team.abbreviation ++ "\n"

/-- The `App` state struct of `main.rs`: selected day, quit flag, cached data. -/
structure App where
  day : Int
  should_quit : Bool
  game_data : Option GameData
deriving DecidableEq, Repr

/-- `gen_navigation_paragraph` of `main.rs`: the fixed navigation legend. -/
def gen_navigation_paragraph : String :=
  "\nNavigation:\none day: j|k\none week: h|l\ntoday: t\nquit: q"

/-- A widget rendered to the frame: the bordered panel title and body text. -/
structure Rendered where
  title : String
  body : String
deriving DecidableEq, Repr

/-- The `ui` render function of `main.rs` as a pure function of the current
moment and app state. It draws nothing (`none`) when `game_data` is absent;
otherwise one bordered paragraph, whose title and body depend on whether the
selected day is past the current moment. -/
def ui (now : Int) (app : App) : Option Rendered :=
  let date := formatYMD app.day
  match app.game_data with
  | none => none
  | some data =>
    let text := String.join (data.data.map Game.get_display_line) ++
      gen_navigation_paragraph
    if app.day ≤ now then
      some ⟨"NBA Game results of: " ++ date, text⟩
    else
      some ⟨date ++ " is in the future.", ""⟩

/-- `crossterm::event::KeyEventKind` (Press / Repeat / Release). -/
inductive KeyEventKind where
  | press
  | rep
  | release
deriving DecidableEq, Repr

/-- `crossterm::event::KeyCode`, restricted to what `update` inspects:
a character key or anything else. -/
inductive KeyCode where
  | char (c : Char)
  | other
deriving DecidableEq, Repr

/-- A `crossterm` key event: kind discriminant plus key code. -/
structure KeyEvent where
  kind : KeyEventKind
  code : KeyCode
deriving DecidableEq, Repr

/-- A `crossterm` event: a key event or any other terminal event. -/
inductive CtEvent where
  | key (k : KeyEvent)
  | other
deriving DecidableEq, Repr

/-- The `update` function of `main.rs`. `fetch` is the environment's
`get_nba_data` behaviour (date ↦ optional result); `now` is `Utc::now()`
at processing time; `ev` is the polled event (`none` = poll timeout).
Note the fetch-and-assign on line 93 runs for every key press. -/
def update (fetch : Int → Option GameData) (now : Int) (ev : Option CtEvent)
    (app : App) : App :=
  match ev with
  | some (CtEvent.key k) =>
    if k.kind = KeyEventKind.press then
      let app1 :=
        match k.code with
        | KeyCode.char c =>
          if c = 'h' then { app with day := app.day + Duration.days 7 }
          else if c = 'j' then { app with day := app.day + Duration.days 1 }
          else if c = 'k' then { app with day := app.day - Duration.days 1 }
          else if c = 'l' then { app with day := app.day - Duration.days 7 }
          else if c = 't' then { app with day := now }
          else if c = 'q' then { app with should_quit := true }
          else app
        | KeyCode.other => app
      { app1 with game_data := fetch app1.day }
    else app
  | _ => app

/-- The `loop` body of `run` in `main.rs`, driven by a finite schedule of
(current moment, polled event) pairs. Each iteration runs `update`, then
renders one frame, then breaks if the quit flag is set. Returns the final
app state and the list of frames rendered before exit. -/
def runLoop (fetch : Int → Option GameData) (steps : List (Int × Option CtEvent))
    (app : App) : App × List (Option Rendered) :=
  match steps with
  | [] => (app, [])
  | (now, ev) :: rest =>
    let app1 := update fetch now ev app
    let frame := ui now app1
    if app1.should_quit then (app1, [frame])
    else
      let r := runLoop fetch rest app1
      (r.1, frame :: r.2)

/-- Outcome of `parse_json`: a decoded value, or a process abort (`panic!`). -/
inductive ParseOutcome where
  | ok (g : GameData)
  | fatal (msg : String)
deriving DecidableEq, Repr

/-- `parse_json` of `main.rs`: `serde_json::from_str` (an external library,
passed in as `from_str`) followed by `unwrap_or_else` that panics with the
error message. -/
def parse_json (from_str : String → Except String GameData)
    (json_data : String) : ParseOutcome :=
  match from_str json_data with
  | Except.ok g => ParseOutcome.ok g
  | Except.error e => ParseOutcome.fatal ("Error parsing JSON: " ++ e)

/-- A `reqwest` blocking response, reduced to what `get_nba_data` uses:
the outcome of `.text()`. -/
structure HttpResponse where
  textResult : Except String String
deriving Repr

/-- Outcome of `get_nba_data`: a returned `Option<GameData>`, or a process
abort (from `.expect` or from the decode `panic!`). -/
inductive FetchOutcome where
  | ret (g : Option GameData)
  | fatal (msg : String)
deriving DecidableEq, Repr

/-- The request URL built by `get_nba_data` for a date. -/
def nbaUrl (date_time : Int) : String :=
  "https://www.balldontlie.io/api/v1/games/" ++ "?dates[]=" ++ formatYMD date_time

/-- `get_nba_data` of `main.rs`. `send` is the network environment
(URL ↦ send outcome); `from_str` is the JSON decoder. A send failure hits
`.expect("Could not read data")` and aborts; a body that cannot be read as
text hits `.text().ok()?` and yields `None`; a decode failure aborts inside
`parse_json`; otherwise the decoded data is returned in `Some`. -/
def get_nba_data (send : String → Except String HttpResponse)
    (from_str : String → Except String GameData) (date_time : Int) : FetchOutcome :=
  match send (nbaUrl date_time) with
  | Except.error _ => FetchOutcome.fatal "Could not read data"
  | Except.ok response =>
    match response.textResult with
    | Except.error _ => FetchOutcome.ret none
    | Except.ok json_response =>
      match parse_json from_str json_response with
      | ParseOutcome.ok g => FetchOutcome.ret (some g)
      | ParseOutcome.fatal m => FetchOutcome.fatal m

/-- The terminal-affecting steps of `main` in `main.rs`, in execution order:
`startup` (raw mode + alternate screen), the `run` loop, `shutdown`
(leave alternate screen + disable raw mode). -/
inductive MainStep where
  | startupStep
  | runStep
  | shutdownStep
deriving DecidableEq, Repr

/-- The `main` function of `main.rs`, modelled over the `Result` outcomes of
its three callees. Returns the trace of steps executed and the final result.
`startup()?` propagates a startup error at once; otherwise `run` executes,
then `shutdown()?` executes unconditionally before `result?` rethrows the
run error. -/
def main (startupRes : Except String Unit) (runRes : Except String Unit)
    (shutdownRes : Except String Unit) : List MainStep × Except String Unit :=
  match startupRes with
  | Except.error e => ([MainStep.startupStep], Except.error e)
  | Except.ok _ =>
    let trace := [MainStep.startupStep, MainStep.runStep, MainStep.shutdownStep]
    match shutdownRes with
    | Except.error e => (trace, Except.error e)
    | Except.ok _ => (trace, runRes)

/-- JSON values, as far as the serde derives on `Team`, `Game`, `Meta` and
`GameData` produce and consume them (all numeric fields are `u32`). -/
inductive Json where
  | null
  | bool (b : Bool)
  | num (n : Nat)
  | str (s : String)
  | arr (xs : List Json)
  | obj (fields : List (String × Json))

/-- Decode a JSON value as a `u32` field. -/
def Json.asNat : Json → Option Nat
  | Json.num n => some n
  | _ => none

/-- Decode a JSON value as a `String` field. -/
def Json.asStr : Json → Option String
  | Json.str s => some s
  | _ => none

/-- Decode a JSON value as a `bool` field. -/
def Json.asBool : Json → Option Bool
  | Json.bool b => some b
  | _ => none

/-- Decode an optional field as `Option<String>`: serde maps a missing field
or `null` to `None` and a string to `Some`. -/
def Json.asOptStr : Option Json → Option (Option String)
  | none => some none
  | some Json.null => some none
  | some (Json.str s) => some (some s)
  | some _ => none

/-- Decode an optional field as `Option<u32>`: serde maps a missing field
or `null` to `None` and a number to `Some`. -/
def Json.asOptNat : Option Json → Option (Option Nat)
  | none => some none
  | some Json.null => some none
  | some (Json.num n) => some (some n)
  | some _ => none

/-- serde `Serialize` for `Team`: object with fields in declaration order. -/
def Team.toJson (t : Team) : Json :=
  Json.obj [("id", Json.num t.id), ("abbreviation", Json.str t.abbreviation),
    ("city", Json.str t.city), ("conference", Json.str t.conference),
    ("division", Json.str t.division), ("full_name", Json.str t.full_name),
    ("name", Json.str t.name)]

/-- serde `Deserialize` for `Team`: look up each declared field by name. -/
def Team.fromJson (j : Json) : Option Team :=
  match j with
  | Json.obj fs => do
    let id ← List.lookup "id" fs >>= Json.asNat
    let abbreviation ← List.lookup "abbreviation" fs >>= Json.asStr
    let city ← List.lookup "city" fs >>= Json.asStr
    let conference ← List.lookup "conference" fs >>= Json.asStr
    let division ← List.lookup "division" fs >>= Json.asStr
    let full_name ← List.lookup "full_name" fs >>= Json.asStr
    let name ← List.lookup "name" fs >>= Json.asStr
    return ⟨id, abbreviation, city, conference, division, full_name, name⟩
  | _ => none

/-- serde `Serialize` for `Game`: object with fields in declaration order;
the `Option<String>` field `time` serializes as `null` or a string. -/
def Game.toJson (g : Game) : Json :=
  Json.obj [("id", Json.num g.id), ("date", Json.str g.date),
    ("home_team", g.home_team.toJson),
    ("home_team_score", Json.num g.home_team_score),
    ("period", Json.num g.period), ("postseason", Json.bool g.postseason),
    ("season", Json.num g.season), ("status", Json.str g.status),
    ("time", match g.time with | none => Json.null | some s => Json.str s),
    ("visitor_team", g.visitor_team.toJson),
    ("visitor_team_score", Json.num g.visitor_team_score)]

/-- serde `Deserialize` for `Game`. -/
def Game.fromJson (j : Json) : Option Game :=
  match j with
  | Json.obj fs => do
    let id ← List.lookup "id" fs >>= Json.asNat
    let date ← List.lookup "date" fs >>= Json.asStr
    let home_team ← List.lookup "home_team" fs >>= Team.fromJson
    let home_team_score ← List.lookup "home_team_score" fs >>= Json.asNat
    let period ← List.lookup "period" fs >>= Json.asNat
    let postseason ← List.lookup "postseason" fs >>= Json.asBool
    let season ← List.lookup "season" fs >>= Json.asNat
    let status ← List.lookup "status" fs >>= Json.asStr
    let time ← Json.asOptStr (List.lookup "time" fs)
    let visitor_team ← List.lookup "visitor_team" fs >>= Team.fromJson
    let visitor_team_score ← List.lookup "visitor_team_score" fs >>= Json.asNat
    return ⟨id, date, home_team, home_team_score, period, postseason, season,
      status, time, visitor_team, visitor_team_score⟩
  | _ => none

/-- serde `Serialize` for `Meta`; `Option<u32>` serializes as `null` or a
number. -/
def Meta.toJson (m : Meta) : Json :=
  Json.obj [("current_page", Json.num m.current_page),
    ("next_page", match m.next_page with | none => Json.null | some n => Json.num n),
    ("per_page", Json.num m.per_page)]

/-- serde `Deserialize` for `Meta`. -/
def Meta.fromJson (j : Json) : Option Meta :=
  match j with
  | Json.obj fs => do
    let current_page ← List.lookup "current_page" fs >>= Json.asNat
    let next_page ← Json.asOptNat (List.lookup "next_page" fs)
    let per_page ← List.lookup "per_page" fs >>= Json.asNat
    return ⟨current_page, next_page, per_page⟩
  | _ => none

/-- serde `Deserialize` for `Vec<Game>`: decode each element in order,
failing if any element fails. -/
def decodeGames : List Json → Option (List Game)
  | [] => some []
  | j :: js => do
    let g ← Game.fromJson j
    let gs ← decodeGames js
    return g :: gs

/-- serde `Serialize` for `GameData`. -/
def GameData.toJson (gd : GameData) : Json :=
  Json.obj [("data", Json.arr (gd.data.map Game.toJson)), ("meta", gd.meta.toJson)]

/-- serde `Deserialize` for `GameData`. -/
def GameData.fromJson (j : Json) : Option GameData :=
  match j with
  | Json.obj fs => do
    let dataJson ← List.lookup "data" fs
    let games ← match dataJson with
      | Json.arr js => decodeGames js
      | _ => none
    let meta ← List.lookup "meta" fs >>= Meta.fromJson
    return ⟨games, meta⟩
  | _ => none

/-- A key-press event for character `c`, as `update` receives it from
`event::read()`. -/
def pressEvent (c : Char) : Option CtEvent :=
  some (CtEvent.key ⟨KeyEventKind.press, KeyCode.char c⟩)

/-- Sample team: the Los Angeles Lakers. -/
def teamLAL : Team :=
  ⟨14, "LAL", "Los Angeles", "West", "Pacific", "Los Angeles Lakers", "Lakers"⟩

/-- Sample team: the Boston Celtics. -/
def teamBOS : Team :=
  ⟨2, "BOS", "Boston", "East", "Atlantic", "Boston Celtics", "Celtics"⟩

/-- Sample game: home LAL scoring 101, visitor BOS scoring 99
(the spec's §8 scenario). -/
def gameLALBOS : Game :=
  ⟨1, "2023-01-15", teamLAL, 101, 4, false, 2022, "Final", none, teamBOS, 99⟩

/-- Sample game agreeing with `gameLALBOS` on both team abbreviations and
both scores, but differing in every other field. -/
def gameLALBOSVariant : Game :=
  ⟨999, "1999-12-31", { teamLAL with id := 77, city := "Elsewhere" }, 101, 2, true,
    1999, "Halftime", some "7:30 PM ET", { teamBOS with full_name := "Other" }, 99⟩

/-- Sample first-page pagination metadata. -/
def metaFirstPage : Meta := ⟨1, none, 25⟩

/-- Sample result set holding the one LAL/BOS game. -/
def gdLALBOS : GameData := ⟨[gameLALBOS], metaFirstPage⟩

/-- Sample result set with zero games. -/
def gdEmpty : GameData := ⟨[], metaFirstPage⟩

/-- The Unix timestamp (seconds) of 2023-01-15 00:00:00 UTC. -/
def day20230115 : Int := 19372 * 86400

/-- serde round-trip for `Team`: decoding the encoding of any team gives the
team back. -/
theorem team_fromJson_toJson (t : Team) : Team.fromJson t.toJson = some t :=
  rfl

/-- serde round-trip for `Game`. -/
theorem game_fromJson_toJson (g : Game) : Game.fromJson g.toJson = some g := by
  cases g with
  | mk id date home_team home_team_score period postseason season status time
      visitor_team visitor_team_score =>
    cases time <;> rfl

/-- serde round-trip for `Meta`. -/
theorem meta_fromJson_toJson (m : Meta) : Meta.fromJson m.toJson = some m := by
  cases m with
  | mk current_page next_page per_page => cases next_page <;> rfl

/-- serde round-trip for `Vec<Game>`. -/
theorem decodeGames_map_toJson (gs : List Game) :
    decodeGames (gs.map Game.toJson) = some gs := by
  induction gs with
  | nil => rfl
  | cons g gs ih => simp [decodeGames, game_fromJson_toJson, ih]

/-- C1: For every key-press event processed by `update`, the selected date
changes by exactly the offset of the spec table — `h` adds 7 days, `j` adds
1 day, `k` subtracts 1 day, `l` subtracts 7 days, `t` sets it to the current
moment — and a press of any other key leaves the selected date unchanged. -/
theorem C1_update_key_offsets (fetch : Int → Option GameData) (now : Int) (app : App) :
    (update fetch now (pressEvent 'h') app).day = app.day + Duration.days 7 ∧
    (update fetch now (pressEvent 'j') app).day = app.day + Duration.days 1 ∧
    (update fetch now (pressEvent 'k') app).day = app.day - Duration.days 1 ∧
    (update fetch now (pressEvent 'l') app).day = app.day - Duration.days 7 ∧
    (update fetch now (pressEvent 't') app).day = now ∧
    ∀ c : Char, c ≠ 'h' → c ≠ 'j' → c ≠ 'k' → c ≠ 'l' → c ≠ 't' →
      (update fetch now (pressEvent c) app).day = app.day := by
  refine ⟨by simp [update, pressEvent], by simp [update, pressEvent],
    by simp [update, pressEvent], by simp [update, pressEvent],
    by simp [update, pressEvent], ?_⟩
  intro c h1 h2 h3 h4 h5
  simp [update, pressEvent, h1, h2, h3, h4, h5]
  split <;> rfl

/-- Witness for C1 at the concrete unrecognized key `x`: the selected date
stays 3. -/
theorem C1_witness :
    (update (fun _ => none) 5 (pressEvent 'x') ⟨3, false, none⟩).day = 3 :=
  (C1_update_key_offsets (fun _ => none) 5 ⟨3, false, none⟩).2.2.2.2.2 'x'
    (by decide) (by decide) (by decide) (by decide) (by decide)

/-- C2 counterexample: processing a press of `q` (and likewise of the
unrecognized key `x`) does invoke the fetcher — with a failing fetcher the
previously cached result set is replaced by `none`, which the claim's
"no further fetch is performed" forbids. -/
theorem C2_counterexample :
    (update (fun _ => none) 0 (pressEvent 'q') ⟨0, false, some gdEmpty⟩).game_data = none ∧
    (⟨0, false, some gdEmpty⟩ : App).game_data = some gdEmpty ∧
    (update (fun _ => none) 0 (pressEvent 'x') ⟨0, false, some gdEmpty⟩).game_data = none :=
  ⟨rfl, rfl, rfl⟩

/-- C2 (amended): processing a press of `q` sets the quit flag, leaves the
selected date unchanged, and the loop terminates right after the current
render (exactly one more frame is drawn); however the data fetcher is
invoked by every key press, `q` included, and its result replaces the
cached result set. -/
theorem C2_amended_quit (fetch : Int → Option GameData) (now : Int)
    (app : App) (rest : List (Int × Option CtEvent)) :
    (update fetch now (pressEvent 'q') app).should_quit = true ∧
    (update fetch now (pressEvent 'q') app).day = app.day ∧
    (update fetch now (pressEvent 'q') app).game_data = fetch app.day ∧
    runLoop fetch ((now, pressEvent 'q') :: rest) app =
      (update fetch now (pressEvent 'q') app,
       [ui now (update fetch now (pressEvent 'q') app)]) := by
  refine ⟨by simp [update, pressEvent], by simp [update, pressEvent],
    by simp [update, pressEvent], ?_⟩
  have hq : (update fetch now (pressEvent 'q') app).should_quit = true := by
    simp [update, pressEvent]
  simp [runLoop, hq]

/-- C3: After any date-changing key (`h`, `j`, `k`, `l`, `t`) is processed,
the fetcher's result for the new date replaces the cached result set
unconditionally — including replacing a present result with `none` when the
fetch fails. -/
theorem C3_fetch_replaces (fetch : Int → Option GameData)
    (now : Int) (app : App) (c : Char)
    (h : c = 'h' ∨ c = 'j' ∨ c = 'k' ∨ c = 'l' ∨ c = 't') :
    (update fetch now (pressEvent c) app).game_data =
      fetch ((update fetch now (pressEvent c) app).day) := by
  rcases h with h | h | h | h | h <;> subst h <;> simp [update, pressEvent]

/-- Witness for C3 at the concrete key `j` with a failing fetcher: the
previously present result set becomes `none`. -/
theorem C3_witness :
    ('j' = 'h' ∨ 'j' = 'j' ∨ 'j' = 'k' ∨ 'j' = 'l' ∨ 'j' = 't') ∧
    (update (fun _ => none) 0 (pressEvent 'j') ⟨0, false, some gdEmpty⟩).game_data = none :=
  ⟨by decide, by
    have h := C3_fetch_replaces (fun _ => none) 0 ⟨0, false, some gdEmpty⟩ 'j' (by decide)
    simpa using h⟩

/-- C4 counterexample: with the selected date (200) strictly after the
current moment (100) but no cached result set, the renderer draws nothing at
all — not the "is in the future" panel the claim requires in that case. -/
theorem C4_counterexample :
    (100 : Int) < 200 ∧ ui 100 ⟨200, false, none⟩ = none ∧
    ui 100 ⟨200, false, none⟩ ≠ some ⟨formatYMD 200 ++ " is in the future.", ""⟩ :=
  ⟨by decide, rfl, by decide⟩

/-- C4 (amended): whenever a result set is cached and the selected date is
strictly after the current moment, the renderer shows the
"(date) is in the future." title with an empty body, regardless of the
cached content; when nothing is cached, nothing is rendered. -/
theorem C4_amended_future (now : Int) (app : App) (gd : GameData)
    (h1 : app.game_data = some gd) (h2 : now < app.day) :
    ui now app = some ⟨formatYMD app.day ++ " is in the future.", ""⟩ := by
  simp [ui, h1, if_neg (not_le.mpr h2)]

/-- Witness for the amended C4 at day 1970-01-02 with current moment
1970-01-01 and a cached empty result set. -/
theorem C4_amended_witness :
    (⟨86400, false, some gdEmpty⟩ : App).game_data = some gdEmpty ∧ (0 : Int) < 86400 ∧
    ui 0 ⟨86400, false, some gdEmpty⟩ = some ⟨"1970-01-02 is in the future.", ""⟩ := by
  refine ⟨rfl, by decide, ?_⟩
  have h := C4_amended_future 0 ⟨86400, false, some gdEmpty⟩ gdEmpty rfl (by decide)
  rw [h]
  decide

/-- C5 counterexample: with no result set ever obtained, the renderer draws
no widget at all — no bordered panel with an empty body as the claim
states. -/
theorem C5_counterexample :
    ui 0 ⟨0, false, none⟩ = none :=
  rfl

/-- C5 (amended): whenever no result set has ever been obtained, the
renderer draws nothing at all — no panel, no border. -/
theorem C5_amended_nothing (now day : Int) (q : Bool) :
    ui now ⟨day, q, none⟩ = none :=
  rfl

/-- C6: when a result set is present and the selected date is not after the
current moment, the panel title is "NBA Game results of: (date)" with the
date formatted YYYY-MM-DD, and the body is the concatenation, in result-set
order, of each game's display line followed by the fixed navigation legend;
in particular the spec's scenario: for 2023-01-15 with one game LAL 101
vs BOS 99, the body is "LAL 101:99 BOS" plus newline plus the legend. -/
theorem C6_results_panel :
    (∀ (now : Int) (app : App) (gd : GameData), app.game_data = some gd → app.day ≤ now →
      ui now app = some ⟨"NBA Game results of: " ++ formatYMD app.day,
        String.join (gd.data.map Game.get_display_line) ++ gen_navigation_paragraph⟩) ∧
    ui day20230115 ⟨day20230115, false, some gdLALBOS⟩ =
      some ⟨"NBA Game results of: 2023-01-15",
        "LAL 101:99 BOS\n" ++ gen_navigation_paragraph⟩ := by
  constructor
  · intro now app gd h1 h2
    simp [ui, h1, if_pos h2]
  · decide

/-- Witness for C6 at the spec's concrete scenario date and game. -/
theorem C6_witness :
    (⟨day20230115, false, some gdLALBOS⟩ : App).game_data = some gdLALBOS ∧
    (⟨day20230115, false, some gdLALBOS⟩ : App).day ≤ day20230115 ∧
    ui day20230115 ⟨day20230115, false, some gdLALBOS⟩ =
      some ⟨"NBA Game results of: " ++ formatYMD day20230115,
        String.join (gdLALBOS.data.map Game.get_display_line) ++ gen_navigation_paragraph⟩ :=
  ⟨rfl, by decide, C6_results_panel.1 day20230115 ⟨day20230115, false, some gdLALBOS⟩
    gdLALBOS rfl (by decide)⟩

/-- C7 counterexample: when the response body cannot be read as text,
`get_nba_data` returns the absent result `none` — it does not abort the
process as the claim states (`.text().ok()?` swallows the error). -/
theorem C7_counterexample :
    get_nba_data (fun _ => Except.ok ⟨Except.error "connection reset"⟩)
      (fun _ => Except.error "unused") 0 = FetchOutcome.ret none ∧
    get_nba_data (fun _ => Except.ok ⟨Except.error "connection reset"⟩)
      (fun _ => Except.error "unused") 0 ≠ FetchOutcome.fatal "Could not read data" :=
  ⟨rfl, by simp [get_nba_data]⟩

/-- C7 (amended): a request that cannot be sent aborts the process (the
`.expect`), a response body that cannot be read as text yields the absent
result `none` without aborting, and a body that fails to decode as the
Result Set schema aborts the process (the `panic!` in `parse_json`). -/
theorem C7_amended_failures (send : String → Except String HttpResponse)
    (from_str : String → Except String GameData) (t : Int) :
    (∀ e, send (nbaUrl t) = Except.error e →
      get_nba_data send from_str t = FetchOutcome.fatal "Could not read data") ∧
    (∀ resp e, send (nbaUrl t) = Except.ok resp → resp.textResult = Except.error e →
      get_nba_data send from_str t = FetchOutcome.ret none) ∧
    (∀ resp s e, send (nbaUrl t) = Except.ok resp → resp.textResult = Except.ok s →
      from_str s = Except.error e →
      get_nba_data send from_str t =
        FetchOutcome.fatal ("Error parsing JSON: " ++ e)) := by
  refine ⟨fun e he => ?_, fun resp e hs ht => ?_, fun resp s e hs ht hf => ?_⟩
  · simp [get_nba_data, he]
  · simp [get_nba_data, hs, ht]
  · simp [get_nba_data, parse_json, hs, ht, hf]

/-- Witness for the amended C7: a send failure produces the fatal
"Could not read data" abort. -/
theorem C7_amended_witness :
    (fun _ : String => (Except.error "no network" : Except String HttpResponse))
        (nbaUrl 0) = Except.error "no network" ∧
    get_nba_data (fun _ => Except.error "no network") (fun _ => Except.error "e") 0 =
      FetchOutcome.fatal "Could not read data" :=
  ⟨rfl, (C7_amended_failures (fun _ => Except.error "no network")
    (fun _ => Except.error "e") 0).1 "no network" rfl⟩

/-- C8: whenever startup succeeded (so the run loop executes), `main`
executes the terminal teardown after the run loop on every exit path —
whether the run loop returns success or an error, and whatever the teardown
itself returns. -/
theorem C8_teardown_always_runs (startupRes runRes shutdownRes : Except String Unit)
    (h : startupRes = Except.ok ()) :
    (main startupRes runRes shutdownRes).1 =
      [MainStep.startupStep, MainStep.runStep, MainStep.shutdownStep] := by
  subst h
  cases shutdownRes <;> rfl

/-- Witness for C8: with a run loop that returns an error, the teardown step
still executes after the run step. -/
theorem C8_witness :
    (Except.ok () : Except String Unit) = Except.ok () ∧
    (main (Except.ok ()) (Except.error "crash in run loop") (Except.ok ())).1 =
      [MainStep.startupStep, MainStep.runStep, MainStep.shutdownStep] :=
  ⟨rfl, C8_teardown_always_runs (Except.ok ()) (Except.error "crash in run loop")
    (Except.ok ()) rfl⟩

/-- C9: serializing any Result Set (`GameData` with its games, embedded
teams, scores and first-page pagination metadata) to JSON and deserializing
the output back yields a field-for-field equal Result Set. -/
theorem C9_gamedata_roundtrip (gd : GameData) :
    GameData.fromJson gd.toJson = some gd := by
  cases gd with
  | mk data meta =>
    simp [GameData.fromJson, GameData.toJson, decodeGames_map_toJson,
      meta_fromJson_toJson, List.lookup]

/-- C10: the per-game display line depends only on the home abbreviation,
home score, visitor score, and visitor abbreviation — two games agreeing on
those four fields render identical lines whatever their other fields hold. -/
theorem C10_display_line_only_four_fields (g1 g2 : Game)
    (h1 : g1.home_team.abbreviation = g2.home_team.abbreviation)
    (h2 : g1.home_team_score = g2.home_team_score)
    (h3 : g1.visitor_team_score = g2.visitor_team_score)
    (h4 : g1.visitor_team.abbreviation = g2.visitor_team.abbreviation) :
    g1.get_display_line = g2.get_display_line := by
  simp [Game.get_display_line, h1, h2, h3, h4]

/-- Witness for C10 at two concrete games that differ in id, date, season,
status, period, time and several team fields but agree on the four
line-determining fields. -/
theorem C10_witness :
    gameLALBOS.home_team.abbreviation = gameLALBOSVariant.home_team.abbreviation ∧
    gameLALBOS.home_team_score = gameLALBOSVariant.home_team_score ∧
    gameLALBOS.visitor_team_score = gameLALBOSVariant.visitor_team_score ∧
    gameLALBOS.visitor_team.abbreviation = gameLALBOSVariant.visitor_team.abbreviation ∧
    gameLALBOS.id ≠ gameLALBOSVariant.id ∧
    gameLALBOS.get_display_line = gameLALBOSVariant.get_display_line :=
  ⟨rfl, rfl, rfl, rfl, by decide,
    C10_display_line_only_four_fields gameLALBOS gameLALBOSVariant rfl rfl rfl rfl⟩

end Nba
